import Mathlib

/-!
Verification of the pose-stream fusion core of the repository
`body-tracking-fusion-model`: the UDP/JSON packet listener
(`pose_stream_server/udp_pose_receiver/udp_pose_receiver.py`) and the
shared fusion workspace
(`pose_stream_server/common/fusion_workspace.py`).

Python values decoded from JSON are modelled by the inductive `Json`;
Python floats are modelled by `ℚ` (all values appearing in the claims
are exact decimals, for which rational arithmetic agrees with IEEE
binary64 on the operations used: storage and a single subtraction).
Logging side effects are modelled as a returned list of `LogEvent`s;
an exception escaping a method is modelled by an `ok : Bool` flag in
the method's result (the partial state the method had already written
is still returned, matching Python, where the caller observes the
mutated object after catching the exception).
-/

/-- A decoded JSON value, as produced by Python's `json.loads`.
Objects are association lists; `json.loads` produces objects whose keys
are unique, so lookup order does not matter for decoded payloads. -/
inductive Json where
  | null : Json
  | bool (b : Bool) : Json
  | num (q : ℚ) : Json
  | str (s : String) : Json
  | arr (elems : List Json) : Json
  | obj (fields : List (String × Json)) : Json

/-- Python truthiness of a decoded JSON value: `None`, `False`, `0`,
`""`, `[]` and `{}` are falsy, everything else truthy. -/
def Json.truthy : Json → Bool
  | .null => false
  | .bool b => b
  | .num q => q ≠ 0
  | .str s => s ≠ ""
  | .arr elems => !elems.isEmpty
  | .obj fields => !fields.isEmpty

/-- Python `len()` on a decoded JSON value: defined for strings, arrays
and objects, a `TypeError` (modelled `none`) otherwise. -/
def Json.pyLen : Json → Option Nat
  | .str s => some s.length
  | .arr elems => some elems.length
  | .obj fields => some fields.length
  | _ => none

/-- `d.get(key)` on a decoded JSON object: `some` of the first binding
of `key` (decoded objects have unique keys), `none` when absent. -/
def Json.getField : Json → String → Option Json
  | .obj fields, key => fields.lookup key
  | _, _ => none

/-- Value of a digit string, most significant digit first. -/
def digitsVal (ds : List Char) : Nat :=
  ds.foldl (fun a c => a * 10 + (c.toNat - 48)) 0

/-- Decomposes a finite decimal literal into a scaled integer mantissa
`m` and a power-of-ten exponent `e`, so that the denoted value is
`m * 10 ^ e`: optional sign, decimal digits with an optional fractional
part, and an optional decimal exponent.  `none` models a parse
failure. -/
def parseFloatParts (s : String) : Option (Int × Int) :=
  let cs0 := s.toList
  let signNeg := cs0.head? = some '-'
  let cs1 := if cs0.head? = some '-' ∨ cs0.head? = some '+' then cs0.tail else cs0
  let ip := cs1.takeWhile Char.isDigit
  let rest1 := cs1.dropWhile Char.isDigit
  let hasDot := rest1.head? = some '.'
  let afterDot := if hasDot then rest1.tail else rest1
  let fp := afterDot.takeWhile Char.isDigit
  let rest2 := if hasDot then afterDot.dropWhile Char.isDigit else rest1
  if ip.isEmpty ∧ fp.isEmpty then none
  else
    let mag : Int := digitsVal (ip ++ fp)
    let m : Int := if signNeg then -mag else mag
    match rest2 with
    | [] => some (m, -(fp.length : Int))
    | e :: rest3 =>
      if e = 'e' ∨ e = 'E' then
        let expNeg := rest3.head? = some '-'
        let rest4 := if rest3.head? = some '-' ∨ rest3.head? = some '+' then rest3.tail else rest3
        let ed := rest4.takeWhile Char.isDigit
        let rest5 := rest4.dropWhile Char.isDigit
        if ed.isEmpty ∨ ¬ rest5.isEmpty then none
        else
          let expVal : Int := if expNeg then -(digitsVal ed : Int) else (digitsVal ed : Int)
          some (m, expVal - (fp.length : Int))
      else none

/-- Models Python `float(s)` on a string `s`, restricted to finite
decimal literals.  (Python also strips surrounding whitespace and
accepts `inf`/`nan` spellings and digit-group underscores; no claim
exercises those spellings, so the model omits them.)  `none` models
`ValueError`. -/
def parseFloatString (s : String) : Option ℚ :=
  (parseFloatParts s).map (fun p => (p.1 : ℚ) * (10 : ℚ) ^ p.2)

/-- Models Python `float(v)` on a decoded JSON value `v`: numbers are
returned as-is, booleans coerce to `1`/`0`, strings are parsed as
decimal literals, and `None`, arrays and objects raise `TypeError`
(modelled `none`). -/
def Json.pyFloat : Json → Option ℚ
  | .num q => some q
  | .bool b => some (if b then 1 else 0)
  | .str s => parseFloatString s
  | _ => none

/-- `PoseSnapshot` dataclass of `fusion_workspace.py`: a timestamp and
a mapping from joint name to a per-landmark mapping of coordinate
fields (`x`, `y`, `z`, `visibility`, ...) to floats.  The mappings are
modelled as association lists in insertion order. -/
structure PoseSnapshot where
  timestamp : ℚ
  landmarks : List (String × List (String × ℚ))
deriving DecidableEq

/-- `lm.get(key, 0.0)` on one landmark's field mapping. -/
def lmGet (lm : List (String × ℚ)) (key : String) : ℚ :=
  (lm.lookup key).getD 0

/-- One log record emitted by the fusion core, carrying exactly the
arguments interpolated into the corresponding `logger` call. -/
inductive LogEvent where
  /-- `logger.info("Unity OSC packet from %s @ %.3f with %d joints", ...)`:
  the sender address, the raw `packet.get("timestamp")` (Python `None`
  when absent, modelled `Option Json`), and the joint count. -/
  | questPacket (addr : String) (timestamp : Option Json) (jointCount : Nat)
  /-- The throttled landmark dump of `update_lower_body` when landmarks
  are present: snapshot timestamp, keypoint count, and the enumerated
  per-keypoint lines `(idx, name, x, y, z, visibility)` starting at 1. -/
  | poseKeypoints (timestamp : ℚ) (count : Nat)
      (lines : List (Nat × String × ℚ × ℚ × ℚ × ℚ))
  /-- The throttled message of `update_lower_body` when the landmark
  mapping is empty. -/
  | poseNoLandmarks (timestamp : ℚ)
  /-- `logger.info("Fusion workspace ready (Quest ts=..., Camera source
  ts=..., Δ=...s) ...")`: the defensively-read quest timestamp, the
  camera snapshot timestamp, and their difference. -/
  | fusionReady (questTs : ℚ) (cameraTs : ℚ) (delta : ℚ)
  /-- `logger.warning("Failed to decode UDP packet from %s: %s", addr, exc)`
  in `datagram_received`: the sender address and the decode failure
  reason. -/
  | udpDecodeWarning (addr : String) (reason : String)

/-- Selects the synchronization observation among emitted log events. -/
def isFusionEvent : LogEvent → Bool
  | .fusionReady _ _ _ => true
  | _ => false

/-- Selects the throttled landmark diagnostic of `update_lower_body`
(either of its two branches). -/
def isThrottleEvent : LogEvent → Bool
  | .poseKeypoints _ _ _ => true
  | .poseNoLandmarks _ => true
  | _ => false

/-- The mutable state of a `FusionWorkspace` instance:
`latest_upper_body` and `latest_lower_body` as set in `__init__`, plus
the `_mp_frame_idx` attribute, which `__init__` does not create —
`update_lower_body` creates it lazily via `hasattr`, so it is `none`
until the first call. -/
structure FusionWorkspace where
  latest_upper_body : Option Json
  latest_lower_body : Option PoseSnapshot
  mp_frame_idx : Option Nat

/-- A freshly constructed `FusionWorkspace()`. -/
def FusionWorkspace.init : FusionWorkspace :=
  { latest_upper_body := none, latest_lower_body := none, mp_frame_idx := none }

/-- Python truthiness of `self.latest_upper_body`: `None` is falsy, a
stored packet is as truthy as the JSON value itself (an empty dict is
falsy). -/
def upperTruthy : Option Json → Bool
  | none => false
  | some j => j.truthy

/-- Python truthiness of `self.latest_lower_body`: `None` is falsy, a
`PoseSnapshot` dataclass instance is always truthy. -/
def lowerTruthy : Option PoseSnapshot → Bool
  | none => false
  | some _ => true

/-- The quest timestamp read defensively by `_log_workspace_state`:
`float(self.latest_upper_body.get("timestamp", 0.0))` inside
`try/except`, so any exception (a non-mapping stored packet, or a
timestamp `float()` rejects) yields the `0.0` default. -/
def extractQuestTs : Json → ℚ
  | .obj fields => (((fields.lookup "timestamp").getD (Json.num 0)).pyFloat).getD 0
  | _ => 0

/-- `FusionWorkspace._log_workspace_state`: returns early unless both
stored values are truthy, otherwise logs one `fusionReady` record with
the defensive quest timestamp, the camera timestamp and their delta. -/
def FusionWorkspace.log_workspace_state (ws : FusionWorkspace) : List LogEvent :=
  if upperTruthy ws.latest_upper_body ∧ lowerTruthy ws.latest_lower_body then
    match ws.latest_upper_body, ws.latest_lower_body with
    | some ub, some lb =>
      let quest_ts := extractQuestTs ub
      let camera_ts := lb.timestamp
      [LogEvent.fusionReady quest_ts camera_ts (camera_ts - quest_ts)]
    | _, _ => []
  else []

/-- Result of a call to `handle_quest_packet`: the workspace state when
the call returns (or when the exception escapes), the log records
emitted before any exception, and `ok = false` when the call raises. -/
structure QuestResult where
  ws : FusionWorkspace
  events : List LogEvent
  ok : Bool

/-- `FusionWorkspace.handle_quest_packet(packet, addr)`: stores the
packet as `latest_upper_body` first, then reads
`packet.get("timestamp")` and `len(packet.get("joints", []) or [])`
(raising `AttributeError` when the packet is not a mapping, and
`TypeError` when the `joints` value is truthy but has no length), logs
the packet summary and calls `_log_workspace_state`.  Formatting a
`None` timestamp with `%.3f` is swallowed by the `logging` module
(`Handler.handleError`) and does not raise into the caller, so the raw
optional timestamp is recorded in the event. -/
def FusionWorkspace.handle_quest_packet (ws : FusionWorkspace) (packet : Json)
    (addr : String) : QuestResult :=
  let ws1 := { ws with latest_upper_body := some packet }
  match packet with
  | Json.obj fields =>
    let timestamp := fields.lookup "timestamp"
    let jointsRaw := (fields.lookup "joints").getD (Json.arr [])
    let joints := if jointsRaw.truthy then jointsRaw else Json.arr []
    match joints.pyLen with
    | none => { ws := ws1, events := [], ok := false }
    | some joint_count =>
      { ws := ws1
        events := LogEvent.questPacket addr timestamp joint_count
          :: ws1.log_workspace_state
        ok := true }
  | _ => { ws := ws1, events := [], ok := false }

/-- Result of a call to `update_lower_body` (it cannot raise). -/
structure LowerResult where
  ws : FusionWorkspace
  events : List LogEvent

/-- The `hasattr`-guarded increment of `_mp_frame_idx` in
`update_lower_body`: the attribute is set to 1 when it does not exist
yet, and incremented otherwise. -/
def nextFrameIdx : Option Nat → Nat
  | some n => n + 1
  | none => 1

/-- `FusionWorkspace.update_lower_body(snapshot)`: stores the snapshot
as `latest_lower_body`, increments the lazily-created `_mp_frame_idx`
counter (first call sets it to 1), on every call where the incremented
counter is divisible by 60 logs the throttled landmark dump (one of two
branches depending on whether landmarks are present), and finally calls
`_log_workspace_state`. -/
def FusionWorkspace.update_lower_body (ws : FusionWorkspace)
    (snapshot : PoseSnapshot) : LowerResult :=
  let ws1 := { ws with latest_lower_body := some snapshot }
  let idx := nextFrameIdx ws.mp_frame_idx
  let ws2 := { ws1 with mp_frame_idx := some idx }
  let throttled :=
    if idx % 60 = 0 then
      if snapshot.landmarks ≠ [] then
        [LogEvent.poseKeypoints snapshot.timestamp snapshot.landmarks.length
          ((List.enumFrom 1 snapshot.landmarks).map (fun p =>
            (p.1, p.2.1, lmGet p.2.2 "x", lmGet p.2.2 "y", lmGet p.2.2 "z",
              lmGet p.2.2 "visibility")))]
      else
        [LogEvent.poseNoLandmarks snapshot.timestamp]
    else []
  { ws := ws2, events := throttled ++ ws2.log_workspace_state }

/-- The spec's read accessor `getLatestUpperBody()`: returns the
current `latest_upper_body` attribute (the code reads the attribute
directly). -/
def getLatestUpperBody (ws : FusionWorkspace) : Option Json :=
  ws.latest_upper_body

/-- The spec's read accessor `getLatestLowerBody()`: returns the
current `latest_lower_body` attribute (the code reads the attribute
directly). -/
def getLatestLowerBody (ws : FusionWorkspace) : Option PoseSnapshot :=
  ws.latest_lower_body

/-- Result of delivering one datagram to
`PosePacketProtocol.datagram_received`: the handler-visible state
afterwards, the log records, the list of handler invocations (payload
and sender address of each call to `self._handler`), and whether the
call returned normally (a handler exception propagates out of
`datagram_received`). -/
structure DatagramOutcome (σ : Type) where
  state : σ
  events : List LogEvent
  handlerCalls : List (Json × String)
  ok : Bool

/-- `PosePacketProtocol.datagram_received(data, addr)`:
`json.loads(data.decode("utf-8"))` — modelled by the ambient stdlib
function `decode`, which returns the parsed payload or the decode
failure reason — then either logs a warning and returns (bad bytes), or
invokes the registered handler once with the payload and sender
address.  The handler mutates a state of type `σ` and may raise. -/
def PosePacketProtocol.datagram_received {σ : Type}
    (decode : List Nat → Except String Json)
    (handler : σ → Json → String → σ × List LogEvent × Bool)
    (st : σ) (data : List Nat) (addr : String) : DatagramOutcome σ :=
  match decode data with
  | Except.error reason =>
    { state := st, events := [LogEvent.udpDecodeWarning addr reason]
      handlerCalls := [], ok := true }
  | Except.ok payload =>
    let r := handler st payload addr
    { state := r.1, events := r.2.1, handlerCalls := [(payload, addr)], ok := r.2.2 }

/-- The handler registered by the fusion application: the Workspace's
`handle_quest_packet` bound method. -/
def workspaceHandler (ws : FusionWorkspace) (payload : Json) (addr : String) :
    FusionWorkspace × List LogEvent × Bool :=
  let r := ws.handle_quest_packet payload addr
  (r.ws, r.events, r.ok)

/-- One call into the Workspace: either `handle_quest_packet packet
addr` or `update_lower_body snapshot`. -/
inductive WorkspaceOp where
  | upper (packet : Json) (addr : String) : WorkspaceOp
  | lower (snapshot : PoseSnapshot) : WorkspaceOp

/-- The workspace state after one call (the state a caller observes
whether or not the call raised: `handle_quest_packet` writes
`latest_upper_body` before any code that can raise). -/
def applyOp (ws : FusionWorkspace) : WorkspaceOp → FusionWorkspace
  | .upper packet addr => (ws.handle_quest_packet packet addr).ws
  | .lower snapshot => (ws.update_lower_body snapshot).ws

/-- The workspace state after a sequence of calls, in call order. -/
def runOps (ws : FusionWorkspace) (ops : List WorkspaceOp) : FusionWorkspace :=
  ops.foldl applyOp ws

/-- Spec-side description: the packet of the most recent
`handle_quest_packet` call in the sequence, absent when there is none. -/
def mostRecentUpper (ops : List WorkspaceOp) : Option Json :=
  ops.foldl (fun acc op => match op with
    | .upper packet _ => some packet
    | .lower _ => acc) none

/-- Spec-side description: the snapshot of the most recent
`update_lower_body` call in the sequence, absent when there is none. -/
def mostRecentLower (ops : List WorkspaceOp) : Option PoseSnapshot :=
  ops.foldl (fun acc op => match op with
    | .upper _ _ => acc
    | .lower snapshot => some snapshot) none

/-- The value of the `_mp_frame_idx` call counter, reading the
not-yet-created attribute as its conceptual starting value 0. -/
def counterVal (ws : FusionWorkspace) : Nat :=
  ws.mp_frame_idx.getD 0

/-- The workspace state after a sequence of `update_lower_body` calls. -/
def runLower (ws : FusionWorkspace) (snaps : List PoseSnapshot) : FusionWorkspace :=
  snaps.foldl (fun w s => (w.update_lower_body s).ws) ws

/-- Whether one `update_lower_body` call emits the throttled landmark
diagnostic (either branch). -/
def throttleFired (ws : FusionWorkspace) (snapshot : PoseSnapshot) : Bool :=
  (ws.update_lower_body snapshot).events.any isThrottleEvent

/-! Helper lemmas shared by the claim theorems. -/

theorem handle_quest_ws_eq (ws : FusionWorkspace) (packet : Json) (addr : String) :
    (ws.handle_quest_packet packet addr).ws
      = { ws with latest_upper_body := some packet } := by
  cases packet with
  | obj fields =>
    simp only [FusionWorkspace.handle_quest_packet]
    split <;> rfl
  | null => rfl
  | bool b => rfl
  | num q => rfl
  | str s => rfl
  | arr elems => rfl

theorem update_lower_ws_eq (ws : FusionWorkspace) (s : PoseSnapshot) :
    (ws.update_lower_body s).ws
      = { ws with latest_lower_body := some s,
                  mp_frame_idx := some (nextFrameIdx ws.mp_frame_idx) } := rfl

theorem nextFrameIdx_eq (o : Option Nat) : nextFrameIdx o = o.getD 0 + 1 := by
  cases o <;> rfl

theorem log_state_eq_of_truthy (ws : FusionWorkspace) (ub : Json) (lb : PoseSnapshot)
    (h1 : ws.latest_upper_body = some ub) (h2 : ws.latest_lower_body = some lb)
    (ht : ub.truthy = true) :
    ws.log_workspace_state
      = [LogEvent.fusionReady (extractQuestTs ub) lb.timestamp
          (lb.timestamp - extractQuestTs ub)] := by
  simp [FusionWorkspace.log_workspace_state, h1, h2, upperTruthy, lowerTruthy, ht]

theorem log_state_upper_falsy (ws : FusionWorkspace)
    (h : upperTruthy ws.latest_upper_body = false) :
    ws.log_workspace_state = [] := by
  simp [FusionWorkspace.log_workspace_state, h]

theorem log_state_lower_none (ws : FusionWorkspace)
    (h : ws.latest_lower_body = none) :
    ws.log_workspace_state = [] := by
  simp [FusionWorkspace.log_workspace_state, h, lowerTruthy]

theorem log_state_no_throttle (ws : FusionWorkspace) :
    ws.log_workspace_state.any isThrottleEvent = false := by
  unfold FusionWorkspace.log_workspace_state
  split
  · split <;> rfl
  · rfl

theorem log_state_filter_fusion (ws : FusionWorkspace) :
    ws.log_workspace_state.filter isFusionEvent = ws.log_workspace_state := by
  unfold FusionWorkspace.log_workspace_state
  split
  · split <;> rfl
  · rfl

/-- C1: For every datagram whose bytes decode as UTF-8 and parse as
JSON (`decode` returns a payload), `datagram_received` invokes the
registered handler exactly once, with the parsed payload and the sender
address; and when the handler is the Workspace's `handle_quest_packet`,
a subsequent `getLatestUpperBody` read returns the parsed JSON value
itself, hence an object deep-equal to it. -/
theorem valid_datagram_dispatches_once
    (σ : Type) (decode : List Nat → Except String Json)
    (handler : σ → Json → String → σ × List LogEvent × Bool)
    (st : σ) (ws : FusionWorkspace) (data : List Nat) (addr : String)
    (payload : Json) (h : decode data = Except.ok payload) :
    (PosePacketProtocol.datagram_received decode handler st data addr).handlerCalls
      = [(payload, addr)]
    ∧ getLatestUpperBody
        (PosePacketProtocol.datagram_received decode workspaceHandler ws data addr).state
      = some payload := by
  constructor
  · simp [PosePacketProtocol.datagram_received, h]
  · simp [PosePacketProtocol.datagram_received, h, getLatestUpperBody,
      workspaceHandler, handle_quest_ws_eq]

/-- Witness for C1: a concrete decoder, datagram, sender and workspace. -/
theorem valid_datagram_dispatches_once_witness :
    (PosePacketProtocol.datagram_received
        (fun _ => Except.ok (Json.obj [("timestamp", Json.num 10)]))
        workspaceHandler FusionWorkspace.init [1, 2, 3] "quest").handlerCalls
      = [(Json.obj [("timestamp", Json.num 10)], "quest")]
    ∧ getLatestUpperBody
        (PosePacketProtocol.datagram_received
          (fun _ => Except.ok (Json.obj [("timestamp", Json.num 10)]))
          workspaceHandler FusionWorkspace.init [1, 2, 3] "quest").state
      = some (Json.obj [("timestamp", Json.num 10)]) :=
  valid_datagram_dispatches_once FusionWorkspace
    (fun _ => Except.ok (Json.obj [("timestamp", Json.num 10)]))
    workspaceHandler FusionWorkspace.init FusionWorkspace.init [1, 2, 3] "quest"
    (Json.obj [("timestamp", Json.num 10)]) rfl

/-- C5: a datagram whose bytes are invalid UTF-8 or fail to parse as
JSON (`decode` fails) causes no handler invocation, leaves the state —
in particular `latest_upper_body` and `latest_lower_body` — exactly as
before, emits a warning carrying the sender address and the failure
reason, and a good datagram processed afterwards still takes effect. -/
theorem bad_datagram_dropped
    (decode : List Nat → Except String Json)
    (ws : FusionWorkspace) (dataBad dataGood : List Nat)
    (addrBad addrGood : String) (reason : String) (payload : Json)
    (hBad : decode dataBad = Except.error reason)
    (hGood : decode dataGood = Except.ok payload) :
    (∀ (σ : Type) (handler : σ → Json → String → σ × List LogEvent × Bool) (st : σ),
        (PosePacketProtocol.datagram_received decode handler st dataBad addrBad).state = st
      ∧ (PosePacketProtocol.datagram_received decode handler st dataBad addrBad).handlerCalls
          = []
      ∧ (PosePacketProtocol.datagram_received decode handler st dataBad addrBad).events
          = [LogEvent.udpDecodeWarning addrBad reason])
    ∧ getLatestUpperBody
        (PosePacketProtocol.datagram_received decode workspaceHandler
          (PosePacketProtocol.datagram_received decode workspaceHandler
            ws dataBad addrBad).state
          dataGood addrGood).state
      = some payload := by
  constructor
  · intro σ handler st
    refine ⟨?_, ?_, ?_⟩ <;> simp [PosePacketProtocol.datagram_received, hBad]
  · simp [PosePacketProtocol.datagram_received, hBad, hGood, getLatestUpperBody,
      workspaceHandler, handle_quest_ws_eq]

/-- Witness for C5: a concrete decoder that rejects the byte string
`[255]` and accepts anything else, with concrete datagrams. -/
theorem bad_datagram_dropped_witness :
    (∀ (σ : Type) (handler : σ → Json → String → σ × List LogEvent × Bool) (st : σ),
        (PosePacketProtocol.datagram_received
            (fun d => if d = [255] then Except.error "invalid utf-8"
              else Except.ok (Json.obj [])) handler st [255] "badhost").state = st
      ∧ (PosePacketProtocol.datagram_received
            (fun d => if d = [255] then Except.error "invalid utf-8"
              else Except.ok (Json.obj [])) handler st [255] "badhost").handlerCalls
          = []
      ∧ (PosePacketProtocol.datagram_received
            (fun d => if d = [255] then Except.error "invalid utf-8"
              else Except.ok (Json.obj [])) handler st [255] "badhost").events
          = [LogEvent.udpDecodeWarning "badhost" "invalid utf-8"])
    ∧ getLatestUpperBody
        (PosePacketProtocol.datagram_received
          (fun d => if d = [255] then Except.error "invalid utf-8"
            else Except.ok (Json.obj []))
          workspaceHandler
          (PosePacketProtocol.datagram_received
            (fun d => if d = [255] then Except.error "invalid utf-8"
              else Except.ok (Json.obj []))
            workspaceHandler FusionWorkspace.init [255] "badhost").state
          [123] "goodhost").state
      = some (Json.obj []) :=
  bad_datagram_dropped
    (fun d => if d = [255] then Except.error "invalid utf-8"
      else Except.ok (Json.obj []))
    FusionWorkspace.init [255] [123] "badhost" "goodhost" "invalid utf-8"
    (Json.obj []) rfl rfl

/-- C6, evaluated at the failing input: `handle_quest_packet` raises
(`ok = false`) on the JSON-object packet with the wrong-typed optional
field `joints = 5`, because `5` is truthy but `len(5)` raises
`TypeError` — contradicting the spec's defend-with-default contract. -/
theorem handle_quest_packet_raises_on_unsized_joints :
    (FusionWorkspace.init.handle_quest_packet
        (Json.obj [("joints", Json.num 5)]) "sender").ok = false := rfl

/-- C9: `handle_quest_packet` stores the packet in `latest_upper_body`
as its first action, before reading any packet field, so a call that
later raises still leaves the new packet stored: shown for every
packet (raising or not), and concretely for the raising packet with
`joints = true`. -/
theorem handle_quest_packet_writes_before_raise
    (ws : FusionWorkspace) (packet : Json) (addr : String) :
    ((ws.handle_quest_packet packet addr).ws).latest_upper_body = some packet
    ∧ (FusionWorkspace.init.handle_quest_packet
        (Json.obj [("joints", Json.bool true)]) "sender").ok = false
    ∧ ((FusionWorkspace.init.handle_quest_packet
        (Json.obj [("joints", Json.bool true)]) "sender").ws).latest_upper_body
      = some (Json.obj [("joints", Json.bool true)]) := by
  refine ⟨?_, rfl, rfl⟩
  rw [handle_quest_ws_eq]

theorem applyOp_upper_field (ws : FusionWorkspace) (op : WorkspaceOp) :
    (applyOp ws op).latest_upper_body
      = (match op with
          | .upper packet _ => some packet
          | .lower _ => ws.latest_upper_body) := by
  cases op with
  | upper packet addr => simp [applyOp, handle_quest_ws_eq]
  | lower s => rfl

theorem applyOp_lower_field (ws : FusionWorkspace) (op : WorkspaceOp) :
    (applyOp ws op).latest_lower_body
      = (match op with
          | .upper _ _ => ws.latest_lower_body
          | .lower s => some s) := by
  cases op with
  | upper packet addr => simp [applyOp, handle_quest_ws_eq]
  | lower s => rfl

theorem runOps_upper_foldl (ops : List WorkspaceOp) : ∀ ws : FusionWorkspace,
    (runOps ws ops).latest_upper_body
      = ops.foldl (fun acc op => match op with
          | .upper packet _ => some packet
          | .lower _ => acc) ws.latest_upper_body := by
  induction ops with
  | nil => intro ws; rfl
  | cons op rest ih =>
    intro ws
    have hstep : runOps ws (op :: rest) = runOps (applyOp ws op) rest := rfl
    rw [hstep, ih (applyOp ws op), List.foldl_cons, applyOp_upper_field]

theorem runOps_lower_foldl (ops : List WorkspaceOp) : ∀ ws : FusionWorkspace,
    (runOps ws ops).latest_lower_body
      = ops.foldl (fun acc op => match op with
          | .upper _ _ => acc
          | .lower s => some s) ws.latest_lower_body := by
  induction ops with
  | nil => intro ws; rfl
  | cons op rest ih =>
    intro ws
    have hstep : runOps ws (op :: rest) = runOps (applyOp ws op) rest := rfl
    rw [hstep, ih (applyOp ws op), List.foldl_cons, applyOp_lower_field]

/-- C2: after any sequence of `handle_quest_packet` and
`update_lower_body` calls on a fresh workspace, `latest_upper_body` is
the packet of the most recent upper call (absent when there was none)
and `latest_lower_body` the snapshot of the most recent lower call
(absent when there was none), ignoring payload timestamps entirely;
moreover each update leaves the other source's field unchanged. -/
theorem workspace_last_write_wins (ops : List WorkspaceOp) :
    (runOps FusionWorkspace.init ops).latest_upper_body = mostRecentUpper ops
    ∧ (runOps FusionWorkspace.init ops).latest_lower_body = mostRecentLower ops
    ∧ (∀ (ws : FusionWorkspace) (packet : Json) (addr : String),
        ((ws.handle_quest_packet packet addr).ws).latest_lower_body
          = ws.latest_lower_body)
    ∧ (∀ (ws : FusionWorkspace) (s : PoseSnapshot),
        ((ws.update_lower_body s).ws).latest_upper_body = ws.latest_upper_body) := by
  refine ⟨?_, ?_, ?_, ?_⟩
  · rw [runOps_upper_foldl]; rfl
  · rw [runOps_lower_foldl]; rfl
  · intro ws packet addr
    rw [handle_quest_ws_eq]
  · intro ws s
    rw [update_lower_ws_eq]

theorem counter_step (ws : FusionWorkspace) (s : PoseSnapshot) :
    counterVal ((ws.update_lower_body s).ws) = counterVal ws + 1 := by
  rw [update_lower_ws_eq]
  simp [counterVal, nextFrameIdx_eq]

theorem runLower_counter (snaps : List PoseSnapshot) : ∀ ws : FusionWorkspace,
    counterVal (runLower ws snaps) = counterVal ws + snaps.length := by
  induction snaps with
  | nil => intro ws; rfl
  | cons s rest ih =>
    intro ws
    have hstep : runLower ws (s :: rest) = runLower ((ws.update_lower_body s).ws) rest := rfl
    rw [hstep, ih ((ws.update_lower_body s).ws), counter_step, List.length_cons]
    omega

theorem throttleFired_iff (ws : FusionWorkspace) (s : PoseSnapshot) :
    throttleFired ws s = ((counterVal ws + 1) % 60 == 0) := by
  unfold throttleFired FusionWorkspace.update_lower_body
  dsimp only
  rw [List.any_append, log_state_no_throttle, Bool.or_false, nextFrameIdx_eq]
  by_cases h : (counterVal ws + 1) % 60 = 0
  · have h0 : (ws.mp_frame_idx.getD 0 + 1) % 60 = 0 := by
      simpa [counterVal] using h
    simp only [h0, if_pos rfl, if_true]
    split <;> simp [isThrottleEvent, h]
  · have h0 : ¬ (ws.mp_frame_idx.getD 0 + 1) % 60 = 0 := by
      simpa [counterVal] using h
    simp [h0, h, counterVal]

/-- C4: from a fresh workspace the `_mp_frame_idx` counter reads as 0,
each sequence of N `update_lower_body` calls increments it by exactly
N (never resetting or decreasing), and one call emits the throttled
landmark diagnostic exactly when the post-increment counter is a
multiple of 60. -/
theorem lower_body_counter_and_throttle (snaps : List PoseSnapshot) :
    counterVal FusionWorkspace.init = 0
    ∧ (∀ ws : FusionWorkspace,
        counterVal (runLower ws snaps) = counterVal ws + snaps.length)
    ∧ (∀ (ws : FusionWorkspace) (s : PoseSnapshot),
        throttleFired ws s = ((counterVal ws + 1) % 60 == 0)) :=
  ⟨rfl, runLower_counter snaps, throttleFired_iff⟩

/-- C7: storing a `PoseSnapshot` via `update_lower_body` and reading
`getLatestLowerBody` yields a snapshot whose timestamp and landmark
mapping equal the stored ones — the very value stored, so no precision
loss and no key-reordering effect on equality. -/
theorem lower_body_round_trip (ws : FusionWorkspace) (snap : PoseSnapshot) :
    getLatestLowerBody ((ws.update_lower_body snap).ws) = some snap
    ∧ ∀ r : PoseSnapshot,
        getLatestLowerBody ((ws.update_lower_body snap).ws) = some r →
        r.timestamp = snap.timestamp ∧ r.landmarks = snap.landmarks := by
  constructor
  · rw [update_lower_ws_eq]; rfl
  · intro r hr
    rw [update_lower_ws_eq] at hr
    simp only [getLatestLowerBody, Option.some.injEq] at hr
    rw [← hr]
    exact ⟨rfl, rfl⟩

/-- Witness for C7 at the spec's example snapshot
`{"nose": {x:1, y:2, z:3, confidence:0.9}}`. -/
theorem lower_body_round_trip_witness :
    getLatestLowerBody ((FusionWorkspace.init.update_lower_body
        ⟨1, [("nose", [("x", 1), ("y", 2), ("z", 3), ("confidence", 9/10)])]⟩).ws)
      = some ⟨1, [("nose", [("x", 1), ("y", 2), ("z", 3), ("confidence", 9/10)])]⟩
    ∧ (⟨1, [("nose", [("x", 1), ("y", 2), ("z", 3), ("confidence", 9/10)])]⟩
          : PoseSnapshot).timestamp
        = (⟨1, [("nose", [("x", 1), ("y", 2), ("z", 3), ("confidence", 9/10)])]⟩
          : PoseSnapshot).timestamp
    ∧ (⟨1, [("nose", [("x", 1), ("y", 2), ("z", 3), ("confidence", 9/10)])]⟩
          : PoseSnapshot).landmarks
        = (⟨1, [("nose", [("x", 1), ("y", 2), ("z", 3), ("confidence", 9/10)])]⟩
          : PoseSnapshot).landmarks := by
  have h := lower_body_round_trip FusionWorkspace.init
    ⟨1, [("nose", [("x", 1), ("y", 2), ("z", 3), ("confidence", 9/10)])]⟩
  exact ⟨h.1, h.2 _ h.1⟩

theorem update_lower_filter_fusion (ws : FusionWorkspace) (s : PoseSnapshot) :
    (ws.update_lower_body s).events.filter isFusionEvent
      = ((ws.update_lower_body s).ws).log_workspace_state := by
  unfold FusionWorkspace.update_lower_body
  dsimp only
  rw [List.filter_append, log_state_filter_fusion, List.append_left_eq_self]
  split
  · split <;> rfl
  · rfl

theorem handle_quest_events_of_not_ok (ws : FusionWorkspace) (packet : Json)
    (addr : String) (h : (ws.handle_quest_packet packet addr).ok = false) :
    (ws.handle_quest_packet packet addr).events = [] := by
  cases packet with
  | obj fields =>
    revert h
    simp only [FusionWorkspace.handle_quest_packet]
    split
    · intro _; rfl
    · intro h; exact absurd h (by simp)
  | null => rfl
  | bool b => rfl
  | num q => rfl
  | str s => rfl
  | arr elems => rfl

theorem handle_quest_filter_fusion (ws : FusionWorkspace) (packet : Json)
    (addr : String) (h : (ws.handle_quest_packet packet addr).ok = true) :
    (ws.handle_quest_packet packet addr).events.filter isFusionEvent
      = ({ ws with latest_upper_body := some packet }
          : FusionWorkspace).log_workspace_state := by
  cases packet with
  | obj fields =>
    revert h
    simp only [FusionWorkspace.handle_quest_packet]
    split
    · intro h; exact Bool.noConfusion h
    · intro _
      dsimp only
      rw [List.filter_cons_of_neg (by simp [isFusionEvent])]
      exact log_state_filter_fusion _
  | null => exact Bool.noConfusion h
  | bool b => exact Bool.noConfusion h
  | num q => exact Bool.noConfusion h
  | str s => exact Bool.noConfusion h
  | arr elems => exact Bool.noConfusion h

/-- C3 counterexample: store the empty JSON object as the upper body
and then a snapshot as the lower body; both fields are present, yet the
`update_lower_body` call emits no synchronization observation, because
`_log_workspace_state` tests Python truthiness and the empty dict is
falsy — refuting the claim that presence of both sides suffices. -/
theorem fusion_delta_absent_for_empty_upper :
    (((FusionWorkspace.init.handle_quest_packet (Json.obj []) "quest").ws).latest_upper_body
        = some (Json.obj []))
    ∧ ((((FusionWorkspace.init.handle_quest_packet (Json.obj []) "quest").ws).update_lower_body
          ⟨41/4, []⟩).ws.latest_lower_body
        = some ⟨41/4, []⟩)
    ∧ ((((FusionWorkspace.init.handle_quest_packet (Json.obj []) "quest").ws).update_lower_body
          ⟨41/4, []⟩).events.filter isFusionEvent
        = []) :=
  ⟨rfl, rfl, rfl⟩

/-- C3 amended: after either update completes without raising, a
synchronization observation with value `latestLowerBody.timestamp`
minus the defensively-read upper-body timestamp is emitted exactly when
both sides are present and the stored upper-body value is truthy (for a
mapping: non-empty); when either side is absent nothing is emitted. -/
theorem fusion_delta_emission :
    (∀ (ws : FusionWorkspace) (ub : Json) (snap : PoseSnapshot),
        ws.latest_upper_body = some ub → ub.truthy = true →
        (ws.update_lower_body snap).events.filter isFusionEvent
          = [LogEvent.fusionReady (extractQuestTs ub) snap.timestamp
              (snap.timestamp - extractQuestTs ub)])
    ∧ (∀ (ws : FusionWorkspace) (packet : Json) (addr : String) (lb : PoseSnapshot),
        ws.latest_lower_body = some lb → packet.truthy = true →
        (ws.handle_quest_packet packet addr).ok = true →
        (ws.handle_quest_packet packet addr).events.filter isFusionEvent
          = [LogEvent.fusionReady (extractQuestTs packet) lb.timestamp
              (lb.timestamp - extractQuestTs packet)])
    ∧ (∀ (ws : FusionWorkspace) (snap : PoseSnapshot),
        ws.latest_upper_body = none →
        (ws.update_lower_body snap).events.filter isFusionEvent = [])
    ∧ (∀ (ws : FusionWorkspace) (packet : Json) (addr : String),
        ws.latest_lower_body = none →
        (ws.handle_quest_packet packet addr).events.filter isFusionEvent = []) := by
  refine ⟨?_, ?_, ?_, ?_⟩
  · intro ws ub snap h ht
    rw [update_lower_filter_fusion, update_lower_ws_eq]
    exact log_state_eq_of_truthy _ ub snap (by simpa using h) rfl ht
  · intro ws packet addr lb h ht hok
    rw [handle_quest_filter_fusion ws packet addr hok]
    exact log_state_eq_of_truthy _ packet lb rfl (by simpa using h) ht
  · intro ws snap h
    rw [update_lower_filter_fusion, update_lower_ws_eq]
    exact log_state_upper_falsy _ (by simp [upperTruthy, h])
  · intro ws packet addr h
    cases hok : (ws.handle_quest_packet packet addr).ok with
    | false => rw [handle_quest_events_of_not_ok ws packet addr hok]; rfl
    | true =>
      rw [handle_quest_filter_fusion ws packet addr hok]
      exact log_state_lower_none _ (by simpa using h)

/-- Witness for C3 (amended), matching the spec's example: upper-body
timestamp 10.0 and lower-body timestamp 10.25 yield delta 0.25. -/
theorem fusion_delta_emission_witness :
    ((FusionWorkspace.mk (some (Json.obj [("timestamp", Json.num 10)])) none
        none).update_lower_body ⟨41/4, []⟩).events.filter isFusionEvent
      = [LogEvent.fusionReady 10 (41/4) (1/4)] := by
  have h := fusion_delta_emission
  have h1 := h.1
    (FusionWorkspace.mk (some (Json.obj [("timestamp", Json.num 10)])) none none)
    (Json.obj [("timestamp", Json.num 10)]) ⟨41/4, []⟩ rfl rfl
  rw [h1, show extractQuestTs (Json.obj [("timestamp", Json.num 10)]) = 10 from rfl]
  norm_num

/-- C10: the defensive upper-body timestamp extraction coerces with
`float()` rather than type-checking: whenever the stored `timestamp`
value `v` is accepted by `float()` — numbers, booleans, numeric strings
such as `"10.5"` — the extracted timestamp is `float(v)` (and the
emitted delta is computed from it); the `0.0` default applies exactly
when the key is absent or `float(v)` raises. -/
theorem quest_ts_coercion :
    (∀ (fields : List (String × Json)) (v : Json) (q : ℚ),
        fields.lookup "timestamp" = some v → v.pyFloat = some q →
        extractQuestTs (Json.obj fields) = q)
    ∧ (∀ fields : List (String × Json),
        fields.lookup "timestamp" = none →
        extractQuestTs (Json.obj fields) = 0)
    ∧ (∀ (fields : List (String × Json)) (v : Json),
        fields.lookup "timestamp" = some v → v.pyFloat = none →
        extractQuestTs (Json.obj fields) = 0)
    ∧ Json.pyFloat (Json.str "10.5") = some (21/2)
    ∧ Json.pyFloat (Json.bool true) = some 1
    ∧ (∀ (ws : FusionWorkspace) (ub : Json) (lb : PoseSnapshot),
        ws.latest_upper_body = some ub → ws.latest_lower_body = some lb →
        ub.truthy = true →
        ws.log_workspace_state
          = [LogEvent.fusionReady (extractQuestTs ub) lb.timestamp
              (lb.timestamp - extractQuestTs ub)]) := by
  refine ⟨?_, ?_, ?_, ?_, rfl, log_state_eq_of_truthy⟩
  · intro fields v q h hq
    simp [extractQuestTs, h, hq]
  · intro fields h
    simp [extractQuestTs, h, Json.pyFloat]
  · intro fields v h hq
    simp [extractQuestTs, h, hq]
  · have hp : parseFloatParts "10.5" = some (105, -1) := rfl
    simp [Json.pyFloat, parseFloatString, hp]
    norm_num

/-- Witness for C10: the numeric string `"10.5"` stored under
`timestamp` is coerced to `10.5`, not defaulted. -/
theorem quest_ts_coercion_witness :
    extractQuestTs (Json.obj [("timestamp", Json.str "10.5")]) = 21/2 := by
  have h := quest_ts_coercion
  exact h.1 [("timestamp", Json.str "10.5")] (Json.str "10.5") (21/2) rfl h.2.2.2.1
